import Mathlib

/-!
Verification of the ESP32-Joystick host tools: a shallow embedding of the
calibration/normalization engine (`test.py`, `oled_mirror.py`), the serial
managers (`calibrator_gui.py`, `joystick_tool.py`) and the calibration
wizard dialog, together with theorems settling the specification claims.

Python floats are modelled as exact rationals (`ℚ`); Python's `/` raises
`ZeroDivisionError` on a zero divisor, so division is modelled fallibly via
`pydiv : ℚ → ℚ → Option ℚ` and the embedded functions return `Option ℚ`
(`none` = the Python code raises).
-/

/-- Python true division: `a / b`, raising (`none`) when `b = 0`. -/
def pydiv (a b : ℚ) : Option ℚ :=
  if b = 0 then none else some (a / b)

/-- Embedding of `calibrated(val, c, mn, mx)` from `src/test.py` lines 67-70:
`if c is None or mx == mn: return 0.0` and otherwise
`(val - c) / (mx - c) if val >= c else (val - c) / (c - mn)`. -/
def calibrated (val : ℚ) (c : Option ℚ) (mn mx : ℚ) : Option ℚ :=
  match c with
  | none => some 0
  | some cv =>
    if mx = mn then some 0
    else if cv ≤ val then pydiv (val - cv) (mx - cv)
    else pydiv (val - cv) (cv - mn)

/-- Embedding of `apply_deadzone(v, dz)` from `src/test.py` lines 72-75:
`if abs(v) < dz: return 0.0` and otherwise
`(v - dz if v > 0 else v + dz) / (1 - dz)`. -/
def apply_deadzone (v dz : ℚ) : Option ℚ :=
  if |v| < dz then some 0
  else pydiv (if 0 < v then v - dz else v + dz) (1 - dz)

/-- The sign function used by the spec formula
`(v - sign(v)*dz) / (1 - dz)` (spec wording, for comparison with
`apply_deadzone`). -/
def signQ (v : ℚ) : ℚ :=
  if 0 < v then 1 else if v < 0 then -1 else 0

/-- The calibration record `cal` of `src/test.py` lines 19-24 /
`src/oled_mirror.py`: optional captured center and per-axis extrema. -/
structure Cal where
  cx : Option ℤ
  cy : Option ℤ
  minx : ℤ
  maxx : ℤ
  miny : ℤ
  maxy : ℤ
deriving DecidableEq, Repr

/-- Initial calibration state (`src/test.py` lines 19-24): center unset,
`min` seeded to 4095, `max` seeded to 0. -/
def initCal : Cal :=
  { cx := none, cy := none, minx := 4095, maxx := 0, miny := 4095, maxy := 0 }

/-- Embedding of `capture_center()` from `src/oled_mirror.py` (and the
"Capture Center" button of `src/test.py`): overwrites the center. -/
def capture_center (c : Cal) (rx ry : ℤ) : Cal :=
  { c with cx := some rx, cy := some ry }

/-- Embedding of `capture_minmax()` from `src/oled_mirror.py` lines 69-73
(and the "Capture Min/Max" button of `src/test.py` lines 97-103):
`min = min(min, raw)`, `max = max(max, raw)` on each axis. -/
def capture_minmax (c : Cal) (rx ry : ℤ) : Cal :=
  { c with
    minx := min c.minx rx, maxx := max c.maxx rx
    miny := min c.miny ry, maxy := max c.maxy ry }

/-- Folding a sequence of raw samples through `capture_minmax`. -/
def capture_seq (c : Cal) (l : List (ℤ × ℤ)) : Cal :=
  l.foldl (fun s pr => capture_minmax s pr.1 pr.2) c

/-- Observable serial-side effects of a manager operation. -/
inductive SEvent where
  | closed : String → SEvent
  | opened : String → SEvent
  | readerStarted : SEvent
  | wrote : String → SEvent
deriving DecidableEq, Repr

/-- Abstract state of a `SerialManager`: the endpoint currently held open
(`none` = closed). In `calibrator_gui.py` the fields `self.serial`
(with `is_open`) and `self.port` stay in sync (`connect` sets both,
`disconnect` clears both), so one optional port models them. -/
structure SMState where
  openPort : Option String
deriving DecidableEq, Repr

/-- Embedding of `SerialManager.connect` from `src/calibrator_gui.py`
lines 41-51: raises on an empty port, is a no-op when already open on the
same port, otherwise calls `disconnect()` (closing any open endpoint) and
then opens the new port and starts a reader thread. Returns the new state
and the list of serial-side effects. -/
def connect_cg (s : SMState) (p : String) : Except String (SMState × List SEvent) :=
  if p = "" then .error "No port"
  else if s.openPort = some p then .ok (s, [])
  else
    .ok (⟨some p⟩,
      (match s.openPort with
       | some q => [SEvent.closed q]
       | none => []) ++ [SEvent.opened p, SEvent.readerStarted])

/-- Embedding of `SerialManager.connect` from `src/joystick_tool.py`
lines 61-67: `if self.serial and self.serial.is_open: return` — a no-op
whenever ANY endpoint is open (the requested port is not compared),
otherwise opens the port and starts a reader thread. -/
def connect_jt (s : SMState) (p : String) : SMState × List SEvent :=
  if s.openPort.isSome then (s, [])
  else (⟨some p⟩, [SEvent.opened p, SEvent.readerStarted])

/-- Embedding of `SerialManager.write` from `src/calibrator_gui.py`
lines 94-97: raises `RuntimeError('Serial not open')` unless the serial
endpoint is open, otherwise writes `cmd + '\n'`. -/
def write_cg (s : SMState) (cmd : String) : Except String (List SEvent) :=
  if s.openPort.isSome then .ok [SEvent.wrote (cmd ++ "\n")]
  else .error "Serial not open"

/-- Embedding of `SerialManager.write` from `src/joystick_tool.py`
lines 105-110: the body is wrapped in `try/except: pass` and only writes
when the endpoint is open — when closed it silently does nothing and
never raises. -/
def write_jt (s : SMState) (data : String) : Except String (List SEvent) :=
  .ok (if s.openPort.isSome then [SEvent.wrote data] else [])

/-- State of the calibration wizard dialog (`open_calibration_dialog` in
`src/calibrator_gui.py` lines 409-461 and `src/joystick_tool.py`): the
`step_state['index']` counter over the three instruction steps
(0 = Center, 1 = Extremes, 2 = Done/complete). -/
structure WizState where
  index : ℕ
deriving DecidableEq, Repr

/-- Opening the calibration dialog: sends the `cal` command and shows
`steps[0]` (index 0 = Center instruction). -/
def wizard_start : WizState × List String :=
  (⟨0⟩, ["cal"])

/-- Embedding of the `on_next` handler: sends `next`, increments the index
(and once `index >= len(steps) - 1 = 2` rebinds the button to close the
dialog). -/
def on_next (w : WizState) : WizState × List String :=
  (⟨w.index + 1⟩, ["next"])

/-- One press of the wizard's button: while `index < 2` the button runs
`on_next`; from `index >= 2` on, the button has been rebound to
`dlg.destroy`, which changes no wizard state and sends no command. -/
def click_next (w : WizState) : WizState × List String :=
  if 2 ≤ w.index then (w, [])
  else on_next w

/-- C1: the claim says `normalize` returns `0.0` whenever `hi == center` or
`center == lo`; but the code only guards `c is None or mx == mn`, so with
`center = hi = 4095`, `lo = 0`, `raw = 4095` the branch `raw >= center`
divides by `hi - center = 0` and Python raises `ZeroDivisionError`
instead of returning `0.0`. -/
theorem C1_counterexample : calibrated 4095 (some 4095) 0 4095 = none := by
  norm_num [calibrated, pydiv]

/-- C1 (amended): `normalize` returns `0.0` exactly under the code's guard —
center unset, or `hi == lo`; before any capture the center is unset
(`initCal`), so every raw sample normalizes to `0.0`. -/
theorem C1_normalize_guard :
    initCal.cx = none ∧ initCal.cy = none ∧
    (∀ val mn mx : ℚ, calibrated val none mn mx = some 0) ∧
    (∀ val cv mn : ℚ, calibrated val (some cv) mn mn = some 0) := by
  refine ⟨rfl, rfl, fun val mn mx => rfl, fun val cv mn => ?_⟩
  simp [calibrated]

/-- C6: `capture_minmax` sets `min = min(min, raw)` and `max = max(max, raw)`
per axis, and over any sequence of captures `min` never increases and
`max` never decreases. -/
theorem C6_capture_monotone :
    (∀ (c : Cal) (rx ry : ℤ),
      (capture_minmax c rx ry).minx = min c.minx rx ∧
      (capture_minmax c rx ry).maxx = max c.maxx rx ∧
      (capture_minmax c rx ry).miny = min c.miny ry ∧
      (capture_minmax c rx ry).maxy = max c.maxy ry) ∧
    (∀ (c : Cal) (l : List (ℤ × ℤ)),
      (capture_seq c l).minx ≤ c.minx ∧ c.maxx ≤ (capture_seq c l).maxx ∧
      (capture_seq c l).miny ≤ c.miny ∧ c.maxy ≤ (capture_seq c l).maxy) := by
  constructor
  · intro c rx ry
    exact ⟨rfl, rfl, rfl, rfl⟩
  · intro c l
    induction l generalizing c with
    | nil => simp [capture_seq]
    | cons pr l ih =>
      have h := ih (capture_minmax c pr.1 pr.2)
      simp only [capture_seq, List.foldl_cons] at h ⊢
      refine ⟨le_trans h.1 ?_, le_trans ?_ h.2.1,
              le_trans h.2.2.1 ?_, le_trans ?_ h.2.2.2⟩ <;>
        simp [capture_minmax]

/-- C9: the wizard starts at Center (index 0, sending `cal`); each button
press at Center or Extremes sends exactly one `next` and advances one
step; at Done (index 2) a press changes nothing and sends no command;
and the step index never regresses. -/
theorem C9_wizard :
    wizard_start = (⟨0⟩, ["cal"]) ∧
    click_next ⟨0⟩ = (⟨1⟩, ["next"]) ∧
    click_next ⟨1⟩ = (⟨2⟩, ["next"]) ∧
    click_next ⟨2⟩ = (⟨2⟩, []) ∧
    (∀ w : WizState, w.index ≤ (click_next w).1.index) := by
  refine ⟨rfl, rfl, rfl, rfl, fun w => ?_⟩
  unfold click_next on_next
  split
  · exact le_refl _
  · exact Nat.le_succ _

/-- C10: with a zero deadzone, `apply_deadzone` is the identity. -/
theorem C10_zero_deadzone_id : ∀ v : ℚ, apply_deadzone v 0 = some v := by
  intro v
  have h : ¬ |v| < 0 := not_lt.mpr (abs_nonneg v)
  simp only [apply_deadzone, if_neg h, pydiv]
  norm_num

/-- C2: with the center set and all of `hi ≠ center`, `center ≠ lo`,
`hi ≠ lo`, `normalize` computes the piecewise-linear map
`(raw - center)/(hi - center)` for `raw ≥ center` and
`(raw - center)/(center - lo)` for `raw < center`; in particular with
`center = 2048, lo = 0, hi = 4095` the raws 2048, 4095, 0 map to
0, 1, -1. -/
theorem C2_piecewise :
    (∀ val cv mn mx : ℚ, mx ≠ cv → cv ≠ mn → mx ≠ mn →
      calibrated val (some cv) mn mx =
        some (if cv ≤ val then (val - cv) / (mx - cv) else (val - cv) / (cv - mn))) ∧
    calibrated 2048 (some 2048) 0 4095 = some 0 ∧
    calibrated 4095 (some 2048) 0 4095 = some 1 ∧
    calibrated 0 (some 2048) 0 4095 = some (-1) := by
  refine ⟨fun val cv mn mx h1 h2 h3 => ?_, by norm_num [calibrated, pydiv],
    by norm_num [calibrated, pydiv], by norm_num [calibrated, pydiv]⟩
  simp only [calibrated, if_neg h3]
  by_cases hle : cv ≤ val
  · simp [hle, pydiv, sub_ne_zero.mpr h1]
  · simp [hle, pydiv, sub_ne_zero.mpr h2]

/-- C2 witness: the general piecewise formula applied at
`raw = 3000, center = 2048, lo = 0, hi = 4095`. -/
theorem C2_witness :
    calibrated 3000 (some 2048) 0 4095 =
      some (if (2048 : ℚ) ≤ 3000 then ((3000 : ℚ) - 2048) / (4095 - 2048)
            else ((3000 : ℚ) - 2048) / (2048 - 0)) :=
  C2_piecewise.1 3000 2048 0 4095 (by norm_num) (by norm_num) (by norm_num)

/-- C3: for a deadzone `dz ∈ [0, 1)`, `apply_deadzone` returns `0` on the
closed band `|v| ≤ dz` (boundary inclusive: `|v| = dz` falls into the
rescaling branch whose numerator is then `0`), and outside the band it
equals the spec formula `(v - sign(v)·dz) / (1 - dz)`; the four concrete
spec examples hold exactly. -/
theorem C3_deadzone :
    (∀ v dz : ℚ, 0 ≤ dz → dz < 1 →
      (|v| ≤ dz → apply_deadzone v dz = some 0) ∧
      (dz ≤ |v| → apply_deadzone v dz = some ((v - signQ v * dz) / (1 - dz)))) ∧
    apply_deadzone (5/100) (1/10) = some 0 ∧
    apply_deadzone (1/10) (1/10) = some 0 ∧
    apply_deadzone 1 (1/10) = some 1 ∧
    apply_deadzone (-(55/100)) (1/10) = some (-(1/2)) := by
  have habs : ∀ v dz : ℚ, 0 ≤ dz → dz < 1 →
      (|v| ≤ dz → apply_deadzone v dz = some 0) ∧
      (dz ≤ |v| → apply_deadzone v dz = some ((v - signQ v * dz) / (1 - dz))) := by
    intro v dz h0 h1
    have hne : (1 : ℚ) - dz ≠ 0 := sub_ne_zero.mpr (ne_of_lt h1).symm
    constructor
    · intro hle
      rcases lt_or_eq_of_le hle with hlt | heq
      · simp [apply_deadzone, hlt]
      · have hnlt : ¬ |v| < dz := by rw [heq]; exact lt_irrefl dz
        simp only [apply_deadzone, if_neg hnlt, pydiv, if_neg hne]
        rcases lt_trichotomy 0 v with hv | hv | hv
        · have hvdz : v = dz := by rw [← heq, abs_of_pos hv]
          rw [if_pos hv, hvdz, sub_self, zero_div]
        · have hdz0 : dz = 0 := by rw [← heq, ← hv, abs_zero]
          simp [← hv, hdz0]
        · have : v + dz = 0 := by
            have : -v = dz := by rw [← heq, abs_of_neg hv]
            linarith
          rw [if_neg (by linarith : ¬ (0 : ℚ) < v), this]
          simp
    · intro hge
      have hnlt : ¬ |v| < dz := not_lt.mpr hge
      simp only [apply_deadzone, if_neg hnlt, pydiv, if_neg hne]
      rcases lt_trichotomy 0 v with hv | hv | hv
      · simp [if_pos hv, signQ, hv]
      · have hdz0 : dz = 0 := by
          have h1 : dz ≤ 0 := by rw [← hv, abs_zero] at hge; exact hge
          linarith
        simp [← hv, hdz0, signQ]
      · have hnv : ¬ (0 : ℚ) < v := by linarith
        have hs : signQ v = -1 := by simp [signQ, hnv, hv]
        rw [if_neg hnv, hs]
        ring_nf
  refine ⟨habs, ?_, ?_, ?_, ?_⟩
  · exact (habs (5/100) (1/10) (by norm_num) (by norm_num)).1 (by rw [abs_of_pos] <;> norm_num)
  · exact (habs (1/10) (1/10) (by norm_num) (by norm_num)).1 (by rw [abs_of_pos] <;> norm_num)
  · have h := (habs 1 (1/10) (by norm_num) (by norm_num)).2
      (by rw [abs_of_pos] <;> norm_num)
    rw [h]; norm_num [signQ]
  · have h := (habs (-(55/100)) (1/10) (by norm_num) (by norm_num)).2
      (by rw [abs_of_neg] <;> norm_num)
    rw [h]; norm_num [signQ]

/-- C3 witness: the general deadzone formula applied at `v = 1, dz = 1/10`. -/
theorem C3_witness :
    apply_deadzone 1 (1/10) = some ((1 - signQ 1 * (1/10)) / (1 - 1/10)) :=
  (C3_deadzone.1 1 (1/10) (by norm_num) (by norm_num)).2
    (by rw [abs_of_pos] <;> norm_num)

/-- C4: the claim says `apply_deadzone` itself clamps or rejects `dz ≥ 1`;
but the code has no guard on `dz`: at `v = 2, dz = 1` it divides by
`1 - dz = 0` (Python raises `ZeroDivisionError`), and at `v = 2, dz = 3/2`
it divides by the negative `1 - dz` and returns the inverted value `-1`. -/
theorem C4_counterexample :
    apply_deadzone 2 1 = none ∧ apply_deadzone 2 (3/2) = some (-1) := by
  constructor <;> norm_num [apply_deadzone, pydiv, abs]

/-- C4 (amended): `apply_deadzone` does not guard its `dz` argument — for
`dz = 1` and any `|v| ≥ 1` it divides by zero (raises), and `dz > 1`
yields inverted output such as `apply_deadzone(2, 1.5) = -1`; `dz` is
only validated upstream by the configuration layer (`set_deadzone`
restricts to `[0, 0.9)`). -/
theorem C4_no_guard :
    (∀ v : ℚ, 1 ≤ |v| → apply_deadzone v 1 = none) ∧
    apply_deadzone 2 (3/2) = some (-1) := by
  constructor
  · intro v h
    have hnlt : ¬ |v| < 1 := not_lt.mpr h
    simp [apply_deadzone, pydiv, hnlt]
  · norm_num [apply_deadzone, pydiv, abs]

/-- C4 witness: the unguarded division by zero at `v = -3, dz = 1`. -/
theorem C4_witness : apply_deadzone (-3) 1 = none :=
  C4_no_guard.1 (-3) (by rw [abs_of_neg] <;> norm_num)

/-- C5: the claim says `normalize` always lands in `[-1, 1]`; but the code
never clamps, so a raw sample beyond the captured extrema escapes the
interval: `raw = 4095` with `center = 50, lo = 0, hi = 100` yields
`(4095 - 50)/(100 - 50) = 809/10 > 1`. -/
theorem C5_counterexample :
    calibrated 4095 (some 50) 0 100 = some (809/10) ∧ (1 : ℚ) < 809/10 := by
  constructor
  · norm_num [calibrated, pydiv]
  · norm_num

/-- C5 (amended): whenever the center is set, `lo ≤ center ≤ hi`, and the
raw sample lies within `[lo, hi]`, every value `normalize` returns lies
in `[-1, 1]`; outside the captured range the result can leave the
interval (no clamping). -/
theorem C5_bounded :
    ∀ (val cv mn mx r : ℚ), mn ≤ cv → cv ≤ mx → mn ≤ val → val ≤ mx →
      calibrated val (some cv) mn mx = some r → -1 ≤ r ∧ r ≤ 1 := by
  intro val cv mn mx r h1 h2 h3 h4 hres
  by_cases hdg : mx = mn
  · simp only [calibrated, if_pos hdg, Option.some.injEq] at hres
    constructor <;> simp [← hres]
  · simp only [calibrated, if_neg hdg] at hres
    by_cases hle : cv ≤ val
    · rw [if_pos hle] at hres
      by_cases hz : mx - cv = 0
      · simp [pydiv, hz] at hres
      · have hpos : 0 < mx - cv := lt_of_le_of_ne (by linarith) (Ne.symm hz)
        simp only [pydiv, if_neg hz, Option.some.injEq] at hres
        rw [← hres]
        constructor
        · have h0 : (0 : ℚ) ≤ (val - cv) / (mx - cv) :=
            div_nonneg (by linarith) (le_of_lt hpos)
          linarith
        · rw [div_le_one hpos]; linarith
    · rw [if_neg hle] at hres
      push_neg at hle
      by_cases hz : cv - mn = 0
      · simp [pydiv, hz] at hres
      · have hpos : 0 < cv - mn := lt_of_le_of_ne (by linarith) (Ne.symm hz)
        simp only [pydiv, if_neg hz, Option.some.injEq] at hres
        rw [← hres]
        constructor
        · rw [neg_le, ← neg_div, neg_sub, div_le_one hpos]; linarith
        · have h0 : (val - cv) / (cv - mn) ≤ 0 :=
            div_nonpos_of_nonpos_of_nonneg (by linarith) (le_of_lt hpos)
          linarith

/-- C5 witness: the in-range bound applied at
`raw = 60, center = 50, lo = 0, hi = 100`, where `normalize = 1/5`. -/
theorem C5_witness : (-1 : ℚ) ≤ 1/5 ∧ (1/5 : ℚ) ≤ 1 :=
  C5_bounded 60 50 0 100 (1/5) (by norm_num) (by norm_num) (by norm_num)
    (by norm_num) (by norm_num [calibrated, pydiv])

/-- C7: the claim says opening while connected to a different endpoint
performs an implicit close and re-points; but `joystick_tool.py`'s
`connect` returns early whenever ANY port is open, so asking it for
"COM4" while "COM3" is open leaves the state on "COM3" and produces no
close/open at all. -/
theorem C7_counterexample :
    connect_jt ⟨some "COM3"⟩ "COM4" = (⟨some "COM3"⟩, []) ∧
    (SMState.mk (some "COM3")) ≠ ⟨some "COM4"⟩ := by
  refine ⟨rfl, ?_⟩
  simp

/-- C7 (amended): open is idempotent on the already-open endpoint in both
implementations; `calibrator_gui.py`'s `connect` additionally re-points
(implicit close of the old endpoint, then open of the new), while
`joystick_tool.py`'s `connect` is a no-op whenever any endpoint is open,
even a different one. -/
theorem C7_open_semantics :
    (∀ (s : SMState) (p : String), p ≠ "" → s.openPort = some p →
      connect_cg s p = .ok (s, [])) ∧
    (∀ (q p : String), p ≠ "" → q ≠ p →
      connect_cg ⟨some q⟩ p =
        .ok (⟨some p⟩, [SEvent.closed q, SEvent.opened p, SEvent.readerStarted])) ∧
    (∀ (s : SMState) (p : String), s.openPort.isSome → connect_jt s p = (s, [])) := by
  refine ⟨fun s p hp hs => ?_, fun q p hp hqp => ?_, fun s p hs => ?_⟩
  · simp [connect_cg, hp, hs]
  · simp [connect_cg, hp, hqp]
  · simp [connect_jt, hs]

/-- C7 witness: no-op on the same port, implicit close on a different one. -/
theorem C7_witness :
    connect_cg ⟨some "COM3"⟩ "COM3" = .ok (⟨some "COM3"⟩, []) ∧
    connect_cg ⟨some "COM3"⟩ "COM4" =
      .ok (⟨some "COM4"⟩,
        [SEvent.closed "COM3", SEvent.opened "COM4", SEvent.readerStarted]) :=
  ⟨C7_open_semantics.1 ⟨some "COM3"⟩ "COM3" (by simp) rfl,
   C7_open_semantics.2.1 "COM3" "COM4" (by simp) (by simp)⟩

/-- C8: the claim says `write` fails with a reported NotOpen error while
closed; but `joystick_tool.py`'s `write` swallows everything
(`try/except: pass` plus an `is_open` check), so writing `next` on a
closed manager returns success having done nothing — no error reaches
the caller. -/
theorem C8_counterexample : write_jt ⟨none⟩ "next" = .ok [] := rfl

/-- C8 (amended): while closed, `calibrator_gui.py`'s `write` raises
`RuntimeError('Serial not open')`, which propagates to the caller;
`joystick_tool.py`'s `write` silently does nothing and reports no
error. -/
theorem C8_write_closed :
    (∀ (s : SMState) (cmd : String), s.openPort = none →
      write_cg s cmd = .error "Serial not open") ∧
    (∀ (s : SMState) (data : String), s.openPort = none →
      write_jt s data = .ok []) := by
  refine ⟨fun s cmd hs => ?_, fun s data hs => ?_⟩
  · simp [write_cg, hs]
  · simp [write_jt, hs]

/-- C8 witness: the closed-manager behaviors at a concrete state. -/
theorem C8_witness :
    write_cg ⟨none⟩ "version" = .error "Serial not open" ∧
    write_jt ⟨none⟩ "cal" = .ok [] :=
  ⟨C8_write_closed.1 ⟨none⟩ "version" rfl, C8_write_closed.2 ⟨none⟩ "cal" rfl⟩
